import Mathlib

/-!
Verification of the crawlingWeb job-board backend (Node.js/Express/MySQL)
against its natural-language specification.

The JavaScript source is shallowly embedded: pure helpers become Lean
functions on `String`/`List Char`; the MySQL tables become explicit list
states; each HTTP handler becomes a function from request data and the
database state to a response value and a new state.  JavaScript string
semantics (regexes, `split`, `trim`, truthiness) and the MySQL fragment
actually used (`INSERT IGNORE`, `ON DUPLICATE KEY UPDATE`,
`CAST(... AS UNSIGNED)`, `REPLACE`, `LIKE '%suffix'`) are translated
explicitly next to each definition.
-/

namespace CrawlingWeb

/-! ### JavaScript string primitives on `List Char`

JS `\s` is modelled by `Char.isWhitespace`; the scraped data and all test
inputs use only ASCII space, for which the two agree. -/

/-- JS `String.prototype.split` with a character-class separator:
splitting on every delimiter character, keeping empty pieces
(`"".split(...)` is `[""]`, i.e. one empty piece). -/
def splitCharsOn (delim : Char → Bool) : List Char → List (List Char)
  | [] => [[]]
  | c :: rest =>
    if delim c then [] :: splitCharsOn delim rest
    else
      match splitCharsOn delim rest with
      | [] => [[c]]
      | h :: t => (c :: h) :: t

/-- JS `String.prototype.trim`: drop whitespace from both ends. -/
def trimChars (l : List Char) : List Char :=
  ((l.dropWhile Char.isWhitespace).reverse.dropWhile Char.isWhitespace).reverse

/-- Numeric value of a decimal digit character. -/
def digitVal (c : Char) : Nat := c.toNat - '0'.toNat

/-! ### Record normalizer (Model/DB_setup/insertData.js) -/

/-- Function `parseMultiValueField` (insertData.js line 113):
`fieldValue.split(/[,·]/).map(v => v.trim()).filter(v => v !== '')`. -/
def parseMultiValueField (fieldValue : String) : List String :=
  ((splitCharsOn (fun c => c == ',' || c == '·') fieldValue.data).map
    (fun l => String.mk (trimChars l))).filter (fun v => v != "")

/-- Try to match the date tail `(\d{2})\/(\d{2})\/(\d{2})` at the head of
the character list; returns (consumed length, yy, mm, dd). -/
def matchDate : List Char → Option (Nat × Nat × Nat × Nat)
  | a :: b :: '/' :: c :: d :: '/' :: e :: f :: _ =>
    if a.isDigit && b.isDigit && c.isDigit && d.isDigit && e.isDigit && f.isDigit then
      some (8, 10 * digitVal a + digitVal b, 10 * digitVal c + digitVal d,
            10 * digitVal e + digitVal f)
    else none
  | _ => none

/-- Match the keyword alternative `(수정일|등록일)` at the head of the list,
returning the number of characters consumed. -/
def kwMatch (l : List Char) : Option Nat :=
  if ['수', '정', '일'].isPrefixOf l then some 3
  else if ['등', '록', '일'].isPrefixOf l then some 3
  else none

/-- Try to match the whole regex `(수정일|등록일)\s*(\d{2})\/(\d{2})\/(\d{2})`
at the head of the list.  `\s*` is greedy and `\s`/`\d` are disjoint, so the
maximal whitespace run is the only candidate. -/
def matchMarkerAt (l : List Char) : Option (Nat × Nat × Nat × Nat) :=
  match kwMatch l with
  | none => none
  | some k =>
    let rest := l.drop k
    let w := (rest.takeWhile Char.isWhitespace).length
    match matchDate (rest.drop w) with
    | none => none
    | some (dlen, yy, mm, dd) => some (k + w + dlen, yy, mm, dd)

/-- Leftmost regex match, as JS `String.prototype.match` finds it:
scan start positions left to right.  Returns (position, length, yy, mm, dd). -/
def findMarker : List Char → Nat → Option (Nat × Nat × Nat × Nat × Nat)
  | [], _ => none
  | c :: rest, i =>
    match matchMarkerAt (c :: rest) with
    | some (len, yy, mm, dd) => some (i, len, yy, mm, dd)
    | none => findMarker rest (i + 1)

/-- Gregorian leap-year test, as moment.js validates dates. -/
def isLeap (y : Nat) : Bool := (y % 4 == 0 && y % 100 != 0) || y % 400 == 0

/-- Days in a month, as moment.js validates dates. -/
def daysInMonth (y m : Nat) : Nat :=
  if m == 2 then (if isLeap y then 29 else 28)
  else if m == 4 || m == 6 || m == 9 || m == 11 then 30
  else 31

/-- Left-pad a (< 100) number to two digits, as moment's `MM`/`DD` tokens. -/
def pad2 (n : Nat) : String := if n < 10 then "0" ++ toString n else toString n

/-- The call `moment(y + "-" + m + "-" + d, 'YYYY-MM-DD').format('YYYY-MM-DD')`:
non-strict parsing accepts unpadded month/day; an out-of-range month or day
makes the moment invalid and `format` then yields `"Invalid date"`. -/
def momentFormatYMD (y m d : Nat) : String :=
  if 1 ≤ m && m ≤ 12 && 1 ≤ d && d ≤ daysInMonth y m then
    toString y ++ "-" ++ pad2 m ++ "-" ++ pad2 d
  else "Invalid date"

/-- Function `parseSectorsAndModifiedDate` (insertData.js lines 118-133): find the
`(수정일|등록일)\s*YY/MM/DD` marker; if present, build the date from
(2000 + yy, mm, dd) and remove the matched substring (JS
`replace(match[0], '')` removes the first occurrence of the matched text,
which is the match itself since the regex match is leftmost); then split
the remainder on `,`, trim, and drop empty tokens and the literal `외`. -/
def parseSectorsAndModifiedDate (sectorStr : String) : List String × Option String :=
  let l := sectorStr.data
  let split := fun (s : List Char) =>
    ((splitCharsOn (fun c => c == ',') s).map (fun x => String.mk (trimChars x))).filter
      (fun v => v != "" && v != "외")
  match findMarker l 0 with
  | some (pos, len, yy, mm, dd) =>
    (split (l.take pos ++ l.drop (pos + len)),
     some (momentFormatYMD (2000 + yy) mm dd))
  | none => (split l, none)

/-! ### Response envelope (View/response.js)

Every handler answers either `success(res, message, ..., pagination?)` or
`error(res, message, err, code)`.  Only the message, the HTTP code and the
pagination block are behaviourally relevant to the claims. -/

/-- Pagination metadata block built by the listing handlers. -/
structure PageMeta where
  currentPage : Int
  totalPages : Nat
  pageSize : Nat
  totalItems : Nat
deriving Repr, DecidableEq

/-- A handler outcome: success with message and optional pagination block,
or a tagged error with message and HTTP status code. -/
inductive ApiResult where
  | ok (msg : String) (meta : Option PageMeta)
  | err (msg : String) (code : Nat)
deriving Repr, DecidableEq

/-! ### Salary-based recommendation (recommendationsAPI.js, GET /pay) -/

/-- MySQL `REPLACE(s, ',', '')`: remove every comma. -/
def removeCommas (s : List Char) : List Char := s.filter (fun c => c != ',')

/-- MySQL `REPLACE(s, '만원', '')`: remove every (non-overlapping,
left-to-right) occurrence of the two-character substring `만원`. -/
def removeManwon : List Char → List Char
  | '만' :: '원' :: rest => removeManwon rest
  | c :: rest => c :: removeManwon rest
  | [] => []

/-- MySQL `CAST(s AS UNSIGNED)` on the integer-shaped strings occurring in
the salary field: skip leading whitespace, then read the maximal decimal
digit prefix; no digits means 0. -/
def castUnsigned (s : List Char) : Nat :=
  (((s.dropWhile Char.isWhitespace).takeWhile Char.isDigit).foldl
    (fun acc c => 10 * acc + digitVal c) 0)

/-- The stripped salary text
`REPLACE(REPLACE(j.salary, ',', ''), '만원', '')` (commas first). -/
def strippedSalary (salary : String) : List Char :=
  removeManwon (removeCommas salary.data)

/-- The numeric sort/filter key
`CAST(REPLACE(REPLACE(j.salary, ',', ''), '만원', '') AS UNSIGNED)`. -/
def salaryNumber (salary : String) : Nat := castUnsigned (strippedSalary salary)

/-- The WHERE clause of GET /recommendations/pay:
`salary LIKE '%만원' AND LENGTH(stripped) > 0 AND CAST(stripped) >= 1000`. -/
def salaryQualifies (salary : String) : Bool :=
  "만원".data.isSuffixOf salary.data
    && (strippedSalary salary).length != 0
    && decide (1000 ≤ salaryNumber salary)

/-- The `ORDER BY CAST(...) DESC` comparison as a relation on (posting id, salary) rows. -/
def salaryRowGE (a b : Nat × String) : Prop :=
  salaryNumber b.2 ≤ salaryNumber a.2

instance : DecidableRel salaryRowGE := fun a b =>
  inferInstanceAs (Decidable (salaryNumber b.2 ≤ salaryNumber a.2))

instance : IsTotal (Nat × String) salaryRowGE :=
  ⟨fun a b => Nat.le_total (salaryNumber b.2) (salaryNumber a.2)⟩

instance : IsTrans (Nat × String) salaryRowGE :=
  ⟨fun _ _ _ hab hbc => Nat.le_trans hbc hab⟩

/-- The row set produced by the /pay data query before LIMIT/OFFSET:
the qualifying rows sorted descending by the parsed salary number
(insertion sort realises MySQL's ORDER BY on the filtered set). -/
def payRecommendList (rows : List (Nat × String)) : List (Nat × String) :=
  List.insertionSort salaryRowGE (rows.filter (fun p => salaryQualifies p.2))

/-! ### Pagination skeletons (jobsAPI.js POST /, bookmarksAPI.js GET /) -/

/-- JS `Math.ceil(totalCount / PAGE_SIZE)` with PAGE_SIZE = 20. -/
def totalPagesOf (totalCount : Nat) : Nat := (totalCount + 19) / 20

/-- JS `parseInt(req.query.page) || 1`: a missing or non-numeric parameter
(NaN) and the value 0 are both falsy and coerce to 1; `none` stands for
missing/NaN input. -/
def parsePageQuery (raw : Option Int) : Int :=
  match raw with
  | none => 1
  | some k => if k == 0 then 1 else k

/-- POST /jobs control flow as a function of the requested page and the
count-query result (jobsAPI.js lines 207-344): `page < 1` is rejected
up front; a zero total count yields the no-matching-postings error; a
page beyond `Math.ceil(totalCount/20)` is rejected after the count query. -/
def jobsListOutcome (page : Int) (totalCount : Nat) : ApiResult :=
  if page < 1 then .err "부적절한 페이지 값" 400
  else if totalCount == 0 then .err "부합한 공고가 없습니다." 404
  else if page > (totalPagesOf totalCount : Int) then .err "부적절한 페이지 값" 400
  else .ok "공고 조회 성공" (some ⟨page, totalPagesOf totalCount, 20, totalCount⟩)

/-- GET /bookmarks control flow (bookmarksAPI.js lines 330-392) as a
function of the raw page query parameter and the user's bookmark count. -/
def bookmarksListOutcome (raw : Option Int) (totalCount : Nat) : ApiResult :=
  let page := parsePageQuery raw
  if page < 1 then .err "부적절한 페이지 값" 400
  else if totalCount == 0 then .err "북마크 된 공고가 없습니다." 404
  else if page > (totalPagesOf totalCount : Int) then .err "부적절한 페이지 값" 400
  else .ok "북마크 목록 반환" (some ⟨page, totalPagesOf totalCount, 20, totalCount⟩)

/-! ### Popularity-based recommendation (recommendationsAPI.js, GET /popular) -/

/-- The `ORDER BY j.views DESC` comparison on (posting id, views) rows. -/
def popularRowGE (a b : Nat × Nat) : Prop := b.2 ≤ a.2

instance : DecidableRel popularRowGE := fun a b =>
  inferInstanceAs (Decidable (b.2 ≤ a.2))

instance : IsTotal (Nat × Nat) popularRowGE := ⟨fun a b => Nat.le_total b.2 a.2⟩

instance : IsTrans (Nat × Nat) popularRowGE :=
  ⟨fun _ _ _ hab hbc => Nat.le_trans hbc hab⟩

/-- GET /recommendations/popular (lines 443-519).  The query
`WHERE views > 0 ORDER BY views DESC, RAND() LIMIT 20 OFFSET (page-1)*20`
is modelled with the `RAND()` tie-break realised by the incoming row
order (insertion sort is stable, so rows with equal view counts keep
their given order — one admissible draw).  Note that the handler sets
`totalItems = topJobs.length`, the size of the fetched page, not of the
whole qualifying set. -/
def popularOutcome (rows : List (Nat × Nat)) (raw : Option Int) : ApiResult :=
  let page := parsePageQuery raw
  if page < 1 then .err "부적절한 페이지 값" 400
  else
    let sorted := List.insertionSort popularRowGE (rows.filter (fun r => decide (0 < r.2)))
    let top := (sorted.drop ((page - 1).toNat * 20)).take 20
    let totalItems := top.length
    if totalItems == 0 then .err "불러온 공고가 없습니다." 404
    else if page > (totalPagesOf totalItems : Int) then .err "부적절한 페이지 값" 400
    else .ok "인기 공고 조회 성공" (some ⟨page, totalPagesOf totalItems, 20, totalItems⟩)

/-! ### Dimension tables (companies, educations, experiences, locations,
sectors, employment_types)

Modelled from the spec: the schema (createTables.js, not present under
src/) puts a UNIQUE key on each dimension table's name/label column and
an AUTO_INCREMENT integer primary key starting at 1 (spec §3/§6: load-
bearing uniqueness constraints; surrogate integer keys).  `INSERT IGNORE`
therefore inserts a fresh row only when the label is absent. -/

/-- One dimension table: (id, label) rows plus the AUTO_INCREMENT counter. -/
structure DimTable where
  rows : List (Nat × String)
  nextId : Nat
deriving Repr, DecidableEq

/-- A fresh dimension table; MySQL AUTO_INCREMENT starts at 1. -/
def emptyDim : DimTable := ⟨[], 1⟩

/-- Query `SELECT <id> FROM <dim> WHERE <label> = ?` — the driver hands back the
first matching row (`rows[0]`). -/
def DimTable.selectId (t : DimTable) (label : String) : Option Nat :=
  (t.rows.find? (fun r => r.2 == label)).map (fun r => r.1)

/-- Statement `INSERT IGNORE INTO <dim> (<label>) VALUES (?)` under the UNIQUE key
on the label column. -/
def DimTable.insertIgnore (t : DimTable) (label : String) : DimTable :=
  if t.rows.any (fun r => r.2 == label) then t
  else { rows := t.rows ++ [(t.nextId, label)], nextId := t.nextId + 1 }

/-- The batch path's get-or-create (insertData.js lines 18-22 and the
analogous blocks): INSERT IGNORE, then SELECT the id. -/
def DimTable.getOrCreate (t : DimTable) (label : String) : Option Nat × DimTable :=
  let t2 := t.insertIgnore label
  (t2.selectId label, t2)

/-- The user-facing path's upsert (jobsAPI.js POST /create and PUT /:id):
`INSERT INTO <dim> (<label>) VALUES (?) ON DUPLICATE KEY UPDATE
<id> = LAST_INSERT_ID(<id>)` — one round trip whose LAST_INSERT_ID is the
existing row's id on conflict, or the freshly inserted id. -/
def DimTable.upsertResolve (t : DimTable) (label : String) : Nat × DimTable :=
  match t.selectId label with
  | some i => (i, t)
  | none => (t.nextId, { rows := t.rows ++ [(t.nextId, label)], nextId := t.nextId + 1 })

/-- Number of rows carrying a given label. -/
def DimTable.countLabel (t : DimTable) (label : String) : Nat :=
  (t.rows.filter (fun r => r.2 == label)).length

/-- Well-formedness maintained by the UNIQUE key: labels are pairwise
distinct. -/
def DimTable.WF (t : DimTable) : Prop := (t.rows.map Prod.snd).Nodup

/-! ### Postings and junction tables -/

/-- One `job_postings` row (columns used by the handlers under study).
`userId` is NULL for batch-ingested rows. -/
structure Posting where
  id : Nat
  companyId : Nat
  userId : Option Nat
  title : String
  link : String
  linkHash : String
  educationId : Option Nat
  deadline : String
  lastModifiedDate : Option String
  salary : String
  employmentTypeId : Option Nat
  views : Nat
deriving Repr, DecidableEq

/-- The relational store: dimension tables, the fact table and the four
junction tables (pairs are (job_posting_id, dimension id)). -/
structure DB where
  companies : DimTable
  educations : DimTable
  experiences : DimTable
  locations : DimTable
  sectors : DimTable
  employmentTypes : DimTable
  postings : List Posting
  nextPostingId : Nat
  postingExperiences : List (Nat × Nat)
  postingLocations : List (Nat × Nat)
  postingSectors : List (Nat × Nat)
  postingEmploymentTypes : List (Nat × Nat)
deriving Repr, DecidableEq

/-- The store right after table creation. -/
def emptyDB : DB :=
  ⟨emptyDim, emptyDim, emptyDim, emptyDim, emptyDim, emptyDim, [], 1, [], [], [], []⟩

/-- Statement `INSERT IGNORE INTO <junction> (job_posting_id, <dim id>) VALUES (?, ?)`
under the composite unique key on the pair. -/
def junctionInsertIgnore (j : List (Nat × Nat)) (pid did : Nat) : List (Nat × Nat) :=
  if j.any (fun x => x == (pid, did)) then j else j ++ [(pid, did)]

/-! ### Batch ingestion (Model/DB_setup/insertData.js) -/

/-- One raw scraped record, keyed as in the crawler output; an absent
field is the empty string (falsy in JS, as the code tests it). -/
structure RawRecord where
  company : String
  title : String
  link : String
  education : String
  experience : String
  region : String
  employmentType : String
  sectorField : String
  deadline : String
  salary : String
deriving Repr, DecidableEq

/-- One multi-value linking loop of insertData.js (lines 50-57, 61-68,
88-95): for each token, INSERT IGNORE into the dimension table, SELECT
its id, and if the id is truthy, INSERT IGNORE the junction pair. -/
def linkMulti (dim : DimTable) (junction : List (Nat × Nat)) (pid : Nat)
    (vals : List String) : DimTable × List (Nat × Nat) :=
  vals.foldl
    (fun acc v =>
      let d := acc.1.insertIgnore v
      match d.selectId v with
      | some did => if did != 0 then (d, junctionInsertIgnore acc.2 pid did) else (d, acc.2)
      | none => (d, acc.2))
    (dim, junction)

/-- Function `insertData` for one record (insertData.js lines 16-100), with the
SHA-256 link digest abstracted as the `hash` argument.  The two `none`
branches correspond to the thrown lookup errors (`company_id 조회 실패`,
`job_posting_id 조회 실패`): the per-record try/catch logs and moves on,
keeping whatever was already written (there is no transaction on this
path).  The `job_postings` INSERT IGNORE is governed by the UNIQUE key on
`link_hash` (schema modelled from the spec, createTables.js not in src/). -/
def insertRecord (hash : String → String) (db : DB) (r : RawRecord) : DB :=
  let companies := db.companies.insertIgnore r.company
  match companies.selectId r.company with
  | none => { db with companies := companies }
  | some companyId =>
    let educations :=
      if r.education != "" then db.educations.insertIgnore r.education else db.educations
    let educationId := educations.selectId r.education
    let parsed := parseSectorsAndModifiedDate r.sectorField
    let linkHash := hash r.link
    let inserted :=
      if db.postings.any (fun p => p.linkHash == linkHash) then
        (db.postings, db.nextPostingId)
      else
        (db.postings ++
          [⟨db.nextPostingId, companyId, none, r.title, r.link, linkHash, educationId,
            r.deadline, parsed.2, r.salary, none, 0⟩],
         db.nextPostingId + 1)
    match (inserted.1.find? (fun p => p.linkHash == linkHash)).map (fun p => p.id) with
    | none =>
      { db with companies := companies, educations := educations,
                postings := inserted.1, nextPostingId := inserted.2 }
    | some jobPostingId =>
      let exps := linkMulti db.experiences db.postingExperiences jobPostingId
        (parseMultiValueField r.experience)
      let locs := linkMulti db.locations db.postingLocations jobPostingId
        (parseMultiValueField r.region)
      let emp :=
        if r.employmentType != "" then
          let et := db.employmentTypes.insertIgnore r.employmentType
          match et.selectId r.employmentType with
          | some etId =>
            if etId != 0 then
              (et,
               inserted.1.map (fun p =>
                 if p.id == jobPostingId then { p with employmentTypeId := some etId } else p),
               junctionInsertIgnore db.postingEmploymentTypes jobPostingId etId)
            else (et, inserted.1, db.postingEmploymentTypes)
          | none => (et, inserted.1, db.postingEmploymentTypes)
        else (db.employmentTypes, inserted.1, db.postingEmploymentTypes)
      let secs := linkMulti db.sectors db.postingSectors jobPostingId parsed.1
      { companies := companies, educations := educations,
        experiences := exps.1, locations := locs.1, sectors := secs.1,
        employmentTypes := emp.1,
        postings := emp.2.1, nextPostingId := inserted.2,
        postingExperiences := exps.2, postingLocations := locs.2,
        postingSectors := secs.2, postingEmploymentTypes := emp.2.2 }

/-- Function `insertData` over a whole crawled array. -/
def insertData (hash : String → String) (db : DB) (dataArray : List RawRecord) : DB :=
  dataArray.foldl (insertRecord hash) db

/-! ### Posting update and delete (jobsAPI.js PUT /:id, DELETE /:id) -/

/-- PUT /jobs/:id request body; a JS-falsy (absent/empty) string field is
the empty string, and the array fields distinguish absent (`none`) from a
supplied list (an empty supplied list is truthy in JS and replaces the
associations with nothing). -/
structure UpdateReq where
  companyName : String
  title : String
  link : String
  educationLevel : String
  deadline : String
  locationNames : Option (List String)
  sectorNames : Option (List String)
  employmentType : String
  salary : String
deriving Repr, DecidableEq

/-- Statement `UPDATE job_postings SET <field> WHERE job_posting_id = ?`. -/
def updatePostingRows (postings : List Posting) (id : Nat) (f : Posting → Posting) :
    List Posting :=
  postings.map (fun p => if p.id == id then f p else p)

/-- Replace the association set for one posting: DELETE all junction rows
with this posting id, then upsert each name and append one junction row
per name (plain INSERT, as the handler issues) — PUT /:id lines 1256-1291. -/
def replaceAssociations (dim : DimTable) (junction : List (Nat × Nat)) (id : Nat)
    (names : List String) : DimTable × List (Nat × Nat) :=
  names.foldl
    (fun acc name =>
      let r := acc.1.upsertResolve name
      (r.2, acc.2 ++ [(id, r.1)]))
    (dim, junction.filter (fun x => x.1 != id))

/-- PUT /jobs/:id (jobsAPI.js lines 1153-1334).

Modelled from the spec: `executeTransaction` (Model/executeDB.js, which is
not under src/) runs the queued statements inside one transaction and
rolls back only when a statement fails (spec §5); a SELECT that returns
zero rows is not a statement failure, so the two lookup SELECTs the
handler queues first (existence, then ownership — spec §9) produce rows
that the handler never examines, and the queued UPDATEs run regardless.
The handler itself contains no 403/404 branch: its only outcomes are the
400 empty-body rejection, the 200 success, and the catch-all 500.
`now` stands for CURRENT_TIMESTAMP. -/
def updateJob (db : DB) (userId : Nat) (id : Nat) (u : UpdateReq) (now : String) :
    ApiResult × DB :=
  if u.companyName == "" && u.title == "" && u.link == "" && u.educationLevel == ""
      && u.deadline == "" && u.locationNames == none && u.sectorNames == none
      && u.employmentType == "" && u.salary == "" then
    (.err "수정할 필드를 입력해주세요." 400, db)
  else
    let _existsRows := db.postings.filter (fun p => p.id == id)
    let _ownerRows := db.postings.filter (fun p => p.id == id && p.userId == some userId)
    let db1 :=
      if u.companyName != "" then
        let r := db.companies.upsertResolve u.companyName
        let ps := updatePostingRows db.postings id (fun p => { p with companyId := r.1 })
        { db with companies := r.2, postings := ps }
      else db
    let db2 :=
      if u.title != "" then
        let ps := updatePostingRows db1.postings id (fun p => { p with title := u.title })
        { db1 with postings := ps }
      else db1
    let db3 :=
      if u.link != "" then
        let ps := updatePostingRows db2.postings id (fun p => { p with link := u.link })
        { db2 with postings := ps }
      else db2
    let db4 :=
      if u.educationLevel != "" then
        let r := db3.educations.upsertResolve u.educationLevel
        let ps := updatePostingRows db3.postings id (fun p => { p with educationId := some r.1 })
        { db3 with educations := r.2, postings := ps }
      else db3
    let db5 :=
      if u.deadline != "" then
        let ps := updatePostingRows db4.postings id (fun p => { p with deadline := u.deadline })
        { db4 with postings := ps }
      else db4
    let db6 :=
      if u.employmentType != "" then
        let r := db5.employmentTypes.upsertResolve u.employmentType
        let ps := updatePostingRows db5.postings id (fun p => { p with employmentTypeId := some r.1 })
        { db5 with employmentTypes := r.2, postings := ps }
      else db5
    let db7 :=
      if u.salary != "" then
        let ps := updatePostingRows db6.postings id (fun p => { p with salary := u.salary })
        { db6 with postings := ps }
      else db6
    let db8 :=
      match u.locationNames with
      | some names =>
        let r := replaceAssociations db7.locations db7.postingLocations id names
        { db7 with locations := r.1, postingLocations := r.2 }
      | none => db7
    let db9 :=
      match u.sectorNames with
      | some names =>
        let r := replaceAssociations db8.sectors db8.postingSectors id names
        { db8 with sectors := r.1, postingSectors := r.2 }
      | none => db8
    let ps10 := updatePostingRows db9.postings id (fun p => { p with lastModifiedDate := some now })
    let db10 := { db9 with postings := ps10 }
    (.ok "공고가 성공적으로 수정되었습니다." none, db10)

/-- DELETE /jobs/:id (jobsAPI.js lines 1774-1805): SELECT the row, 404 if
absent, 403 if `job[0].user_id !== userId` (NULL owners included), else
delete the posting row; the junction rows fall away via the relational
cascade the schema implies (spec §4.3; createTables.js not under src/). -/
def deleteJob (db : DB) (userId : Nat) (id : Nat) : ApiResult × DB :=
  match db.postings.find? (fun p => p.id == id) with
  | none => (.err "삭제하려는 공고가 존재하지 않습니다." 404, db)
  | some job =>
    if job.userId != some userId then
      (.err "이 공고를 삭제할 권한이 없습니다." 403, db)
    else
      (.ok "공고가 성공적으로 삭제되었습니다." none,
       { db with postings := db.postings.filter (fun p => p.id != id),
                 postingExperiences := db.postingExperiences.filter (fun x => x.1 != id),
                 postingLocations := db.postingLocations.filter (fun x => x.1 != id),
                 postingSectors := db.postingSectors.filter (fun x => x.1 != id),
                 postingEmploymentTypes :=
                   db.postingEmploymentTypes.filter (fun x => x.1 != id) })

/-! ### Bookmark toggle (bookmarksAPI.js POST /) -/

/-- One `bookmarks` row. -/
structure BookmarkRow where
  userId : Nat
  jobPostingId : Nat
  createdAt : Nat
deriving Repr, DecidableEq

/-- The pair key of a bookmark row. -/
def bookmarkMatches (u p : Nat) (b : BookmarkRow) : Bool :=
  b.userId == u && b.jobPostingId == p

/-- Rows present for one (user, posting) pair. -/
def bookmarkCount (rows : List BookmarkRow) (u p : Nat) : Nat :=
  (rows.filter (bookmarkMatches u p)).length

/-- POST /bookmarks (lines 115-148): a falsy jobPostingId (0) is rejected;
otherwise SELECT the pair, DELETE it when present, INSERT it (with NOW(),
modelled by `now`) when absent. -/
def bookmarkToggle (rows : List BookmarkRow) (u p now : Nat) :
    ApiResult × List BookmarkRow :=
  if p == 0 then (.err "공고 ID를 제공해야 합니다." 400, rows)
  else if rows.any (bookmarkMatches u p) then
    (.ok "북마크가 제거되었습니다." none, rows.filter (fun b => !bookmarkMatches u p b))
  else
    (.ok "북마크가 추가되었습니다." none, rows ++ [⟨u, p, now⟩])

/-- Iterate the toggle for one pair, one call per timestamp in `times`. -/
def bookmarkToggleN (rows : List BookmarkRow) (u p : Nat) (times : List Nat) :
    List BookmarkRow :=
  times.foldl (fun acc t => (bookmarkToggle acc u p t).2) rows

/-! ### Registration validation (authAPI.js POST /register) -/

/-- The email regex `/^[^\s@]+@[^\s@]+\.[^\s@]+$/` compiled to a direct
check: exactly one `@`; a nonempty whitespace-free local part; a nonempty
whitespace-free domain containing a dot that is neither its first nor its
last character (so both `[^\s@]+` pieces around `\.` are nonempty —
`[^\s@]` itself admits further dots). -/
def emailRegexTest (email : String) : Bool :=
  match splitCharsOn (fun c => c == '@') email.data with
  | [lp, dp] =>
    !lp.isEmpty && lp.all (fun c => !c.isWhitespace)
      && !dp.isEmpty && dp.all (fun c => !c.isWhitespace)
      && ((dp.drop 1).dropLast.contains '.')
  | _ => false

/-- The register handler's email guard (authAPI.js lines 161-164):
`!emailRegex.test(email) || email === "user@example.com"`. -/
def registerEmailCheckRejects (email : String) : Bool :=
  !emailRegexTest email || email == "user@example.com"

/-- The name regex `/^[a-zA-Z가-힣0-9]+$/`. -/
def nameCharsOk (name : String) : Bool :=
  !name.isEmpty && name.data.all (fun c =>
    ('a' ≤ c && c ≤ 'z') || ('A' ≤ c && c ≤ 'Z') || ('가' ≤ c && c ≤ '힣') || c.isDigit)

/-- The password regex `/^[a-zA-Z0-9!@]+$/`. -/
def passwordCharsOk (password : String) : Bool :=
  !password.isEmpty && password.data.all (fun c =>
    ('a' ≤ c && c ≤ 'z') || ('A' ≤ c && c ≤ 'Z') || c.isDigit || c == '!' || c == '@')

/-- The validation chain of POST /auth/register (lines 153-176), up to the
database round trips: `some e` is an early 400 rejection, `none` means
the request passes all format checks. -/
def registerValidate (email password name : String) : Option ApiResult :=
  if email == "" || password == "" || name == "" then
    some (.err "모든 필드를 입력하세요." 400)
  else if registerEmailCheckRejects email then
    some (.err "유효하지 않은 이메일 형식입니다." 400)
  else if !nameCharsOk name then
    some (.err "이름은 한글, 영어, 숫자만 입력 가능합니다." 400)
  else if !passwordCharsOk password then
    some (.err "비밀번호는 영어, 숫자, !, @만 포함할 수 있습니다." 400)
  else none

/-! ## Supporting lemmas: dimension tables -/

theorem any_insertIgnore_self (t : DimTable) (label : String) :
    ((t.insertIgnore label).rows.any fun r => r.2 == label) = true := by
  unfold DimTable.insertIgnore
  split
  · assumption
  · simp [List.any_append]

theorem selectId_isSome_of_any {t : DimTable} {label : String}
    (h : (t.rows.any fun r => r.2 == label) = true) : (t.selectId label).isSome := by
  unfold DimTable.selectId
  rcases List.any_eq_true.mp h with ⟨x, hx, hpx⟩
  have : (t.rows.find? fun r => r.2 == label).isSome := List.find?_isSome.mpr ⟨x, hx, hpx⟩
  rcases Option.isSome_iff_exists.mp this with ⟨y, hy⟩
  simp [hy]

theorem selectId_insertIgnore_isSome (t : DimTable) (label : String) :
    ((t.insertIgnore label).selectId label).isSome :=
  selectId_isSome_of_any (any_insertIgnore_self t label)

theorem insertIgnore_idem (t : DimTable) (label : String) :
    (t.insertIgnore label).insertIgnore label = t.insertIgnore label := by
  have h := any_insertIgnore_self t label
  generalize t.insertIgnore label = s at h ⊢
  unfold DimTable.insertIgnore
  rw [if_pos h]

theorem countLabel_eq_zero_of_any_false {t : DimTable} {label : String}
    (h : (t.rows.any fun r => r.2 == label) = false) : t.countLabel label = 0 := by
  unfold DimTable.countLabel
  rw [List.length_eq_zero, List.filter_eq_nil_iff]
  intro a ha
  have := List.any_eq_false.mp h
  exact this a ha

theorem countLabel_pos_of_any {t : DimTable} {label : String}
    (h : (t.rows.any fun r => r.2 == label) = true) : 0 < t.countLabel label := by
  rcases List.any_eq_true.mp h with ⟨x, hx, hpx⟩
  exact List.length_pos.mpr (List.ne_nil_of_mem (List.mem_filter.mpr ⟨hx, hpx⟩))

theorem filter_label_length_le_one {label : String} :
    ∀ (rows : List (Nat × String)), (rows.map Prod.snd).Nodup →
      ((rows.filter fun r => r.2 == label).length ≤ 1)
  | [], _ => by simp
  | a :: rest, h => by
    have hnotin : a.2 ∉ rest.map Prod.snd := (List.nodup_cons.mp h).1
    have hrest : (rest.map Prod.snd).Nodup := (List.nodup_cons.mp h).2
    by_cases ha : a.2 = label
    · have hnil : (rest.filter fun r => r.2 == label) = [] := by
        rw [List.filter_eq_nil_iff]
        intro b hb hbl
        exact hnotin (ha ▸ (eq_of_beq hbl) ▸ List.mem_map_of_mem Prod.snd hb)
      simp [List.filter_cons, ha, hnil]
    · have : (a.2 == label) = false := beq_eq_false_iff_ne.mpr ha
      simpa [List.filter_cons, this] using filter_label_length_le_one rest hrest

theorem countLabel_le_one_of_WF {t : DimTable} (hwf : t.WF) (label : String) :
    t.countLabel label ≤ 1 :=
  filter_label_length_le_one t.rows hwf

theorem countLabel_insertIgnore_self {t : DimTable} (hwf : t.WF) (label : String) :
    (t.insertIgnore label).countLabel label = 1 := by
  unfold DimTable.insertIgnore
  split
  case isTrue h =>
    have h1 := countLabel_pos_of_any h
    have h2 := countLabel_le_one_of_WF hwf label
    omega
  case isFalse h =>
    have h0 : t.countLabel label = 0 :=
      countLabel_eq_zero_of_any_false (Bool.eq_false_iff.mpr h)
    unfold DimTable.countLabel at h0 ⊢
    simp only [List.filter_append, List.length_append, h0]
    simp

theorem selectId_append_fresh {t : DimTable} {label : String}
    (h : t.selectId label = none) (n : Nat) :
    (DimTable.mk (t.rows ++ [(n, label)]) (n + 1)).selectId label = some n := by
  unfold DimTable.selectId at h ⊢
  have hfind : (t.rows.find? fun r => r.2 == label) = none := by
    cases hf : t.rows.find? fun r => r.2 == label
    · rfl
    · rw [hf] at h; simp at h
  simp [List.find?_append, hfind]

theorem any_of_selectId_some {t : DimTable} {label : String} {i : Nat}
    (hsel : t.selectId label = some i) :
    (t.rows.any fun r => r.2 == label) = true := by
  unfold DimTable.selectId at hsel
  cases hf : t.rows.find? fun r => r.2 == label with
  | none => rw [hf] at hsel; simp at hsel
  | some x =>
    have hpx : (x.2 == label) = true := by simpa using List.find?_some hf
    exact List.any_eq_true.mpr ⟨x, List.mem_of_find?_eq_some hf, hpx⟩

/-! ## C3: idempotent dimension resolution -/

/-- C3.  For every dimension label, both resolution paths — the batch
path's INSERT IGNORE + SELECT (`DimTable.getOrCreate`, insertData.js
lines 18-22) and the endpoint path's single-statement upsert
(`DimTable.upsertResolve`, jobsAPI.js POST /create) — return the same id
when called twice, and afterwards the table holds exactly one row for the
label (given the UNIQUE-key well-formedness `DimTable.WF`). -/
theorem dimension_resolution_idempotent (t : DimTable) (label : String) (hwf : t.WF) :
    ((t.getOrCreate label).1.isSome ∧
     (t.getOrCreate label).1 = ((t.getOrCreate label).2.getOrCreate label).1 ∧
     ((t.getOrCreate label).2.getOrCreate label).2.countLabel label = 1) ∧
    ((t.upsertResolve label).1 = ((t.upsertResolve label).2.upsertResolve label).1 ∧
     ((t.upsertResolve label).2.upsertResolve label).2.countLabel label = 1) := by
  constructor
  · refine ⟨selectId_insertIgnore_isSome t label, ?_, ?_⟩
    · simp [DimTable.getOrCreate, insertIgnore_idem]
    · simp [DimTable.getOrCreate, insertIgnore_idem, countLabel_insertIgnore_self hwf]
  · cases hsel : t.selectId label with
    | some i =>
      have heq : t.upsertResolve label = (i, t) := by
        unfold DimTable.upsertResolve
        rw [hsel]
      have hany := any_of_selectId_some hsel
      have h1 := countLabel_pos_of_any hany
      have h2 := countLabel_le_one_of_WF hwf label
      rw [heq]
      simp only [heq]
      exact ⟨trivial, by omega⟩
    | none =>
      have heq : t.upsertResolve label =
          (t.nextId, ⟨t.rows ++ [(t.nextId, label)], t.nextId + 1⟩) := by
        unfold DimTable.upsertResolve
        rw [hsel]
      have hstep := selectId_append_fresh hsel t.nextId
      have heq2 : (DimTable.mk (t.rows ++ [(t.nextId, label)])
          (t.nextId + 1)).upsertResolve label =
          (t.nextId, ⟨t.rows ++ [(t.nextId, label)], t.nextId + 1⟩) := by
        unfold DimTable.upsertResolve
        rw [hstep]
      rw [heq]
      simp only [heq2]
      refine ⟨trivial, ?_⟩
      have h0 : t.countLabel label = 0 := by
        unfold DimTable.countLabel
        rw [List.length_eq_zero, List.filter_eq_nil_iff]
        intro a ha hal
        have hnone : (t.rows.find? fun r => r.2 == label) = none := by
          cases hf : t.rows.find? fun r => r.2 == label
          · rfl
          · unfold DimTable.selectId at hsel
            rw [hf] at hsel
            simp at hsel
        exact (List.find?_eq_none.mp hnone a ha) hal
      unfold DimTable.countLabel at h0 ⊢
      simp only [List.filter_append, List.length_append, h0]
      simp

/-- Witness for C3 at the empty companies table and the label "IT". -/
theorem dimension_resolution_idempotent_witness :
    ((emptyDim.getOrCreate "IT").1.isSome ∧
     (emptyDim.getOrCreate "IT").1 = ((emptyDim.getOrCreate "IT").2.getOrCreate "IT").1 ∧
     ((emptyDim.getOrCreate "IT").2.getOrCreate "IT").2.countLabel "IT" = 1) ∧
    ((emptyDim.upsertResolve "IT").1 = ((emptyDim.upsertResolve "IT").2.upsertResolve "IT").1 ∧
     ((emptyDim.upsertResolve "IT").2.upsertResolve "IT").2.countLabel "IT" = 1) :=
  dimension_resolution_idempotent emptyDim "IT" (by simp [DimTable.WF, emptyDim])

/-! ## C5: multi-value field parser -/

/-- C5 counterexample.  The claim says the multi-value field parser
excludes the `외` ("etc.") sentinel token, but `parseMultiValueField`
(insertData.js line 113) only splits, trims and drops empties: on the
input `"외"` it returns `["외"]`, not `[]` — the sentinel survives. -/
theorem parseMultiValueField_keeps_sentinel :
    parseMultiValueField "외" = ["외"] ∧ "외" ∈ parseMultiValueField "외" ∧
    ¬parseMultiValueField "외" = [] := by
  refine ⟨by decide, by decide, by decide⟩

theorem mem_sector_split {v : String} {s : List Char}
    (h : v ∈ ((splitCharsOn (fun c => c == ',') s).map
        (fun x => String.mk (trimChars x))).filter
        (fun v => v != "" && v != "외")) :
    v ≠ "" ∧ v ≠ "외" := by
  have h2 := (List.mem_filter.mp h).2
  constructor <;> intro he <;> subst he <;> simp at h2

theorem parseSectorsAndModifiedDate_fst_shape (s : String) :
    ∃ rem : List Char,
      (parseSectorsAndModifiedDate s).1 =
        ((splitCharsOn (fun c => c == ',') rem).map
          (fun x => String.mk (trimChars x))).filter
          (fun v => v != "" && v != "외") := by
  unfold parseSectorsAndModifiedDate
  cases hfm : findMarker s.data 0 with
  | none => exact ⟨s.data, by simp [hfm]⟩
  | some x =>
    obtain ⟨pos, len, yy, mm, dd⟩ := x
    exact ⟨s.data.take pos ++ s.data.drop (pos + len), by simp [hfm]⟩

/-- C5 as amended.  `parseMultiValueField` returns the comma/mid-dot-split,
trimmed, non-empty tokens — the empty input gives `[]` and no token is the
empty string — but it does not exclude the `외` sentinel; that sentinel is
excluded only by the sector parser `parseSectorsAndModifiedDate`
(insertData.js line 130), which splits on commas alone. -/
theorem parseMultiValueField_spec :
    parseMultiValueField "" = [] ∧
    parseMultiValueField "서울 · 경기, 부산" = ["서울", "경기", "부산"] ∧
    (∀ s t, t ∈ parseMultiValueField s → t ≠ "") ∧
    (∀ s, "외" ∉ (parseSectorsAndModifiedDate s).1) := by
  refine ⟨by decide, by decide, ?_, ?_⟩
  · intro s t ht
    have h2 := (List.mem_filter.mp ht).2
    intro he
    subst he
    simp at h2
  · intro s hmem
    obtain ⟨rem, hrem⟩ := parseSectorsAndModifiedDate_fst_shape s
    rw [hrem] at hmem
    exact (mem_sector_split hmem).2 rfl

/-! ## C6: embedded date extraction from the sector field -/

/-- C6 counterexample.  On the claim's example input
`"IT, Software (updated 24/03/15)"` (Korean marker `수정일`, wrapped in
literal parentheses as the example writes it), the code strips only the
matched marker text, so the parentheses stay behind in the second sector
token: the sectors are `["IT", "Software ()"]`, not `["IT", "Software"]`
as the claim asserts (the date itself is still extracted). -/
theorem parseSectors_parenthesised_example :
    (parseSectorsAndModifiedDate "IT, Software (수정일 24/03/15)").1
        = ["IT", "Software ()"] ∧
    (parseSectorsAndModifiedDate "IT, Software (수정일 24/03/15)").2
        = some "2024-03-15" ∧
    ¬(parseSectorsAndModifiedDate "IT, Software (수정일 24/03/15)").1
        = ["IT", "Software"] := by
  refine ⟨by decide, by decide, by decide⟩

/-- C6 as amended.  The marker the parser recognises is the bare
`(수정일|등록일) YY/MM/DD` text with no surrounding parentheses: on
`"IT, Software 수정일 24/03/15"` it yields sectors `["IT", "Software"]`
and date `2024-03-15`; without a marker the whole string is split and no
date is produced; when the marker is wrapped in literal parentheses only
the marker text is stripped and the parentheses remain in the adjacent
sector token.  In general a found marker yields exactly the date
`2000+yy`-`mm`-`dd` (moment-formatted) and an absent marker yields none. -/
theorem parseSectorsAndModifiedDate_spec :
    parseSectorsAndModifiedDate "IT, Software 수정일 24/03/15"
        = (["IT", "Software"], some "2024-03-15") ∧
    parseSectorsAndModifiedDate "IT, Software" = (["IT", "Software"], none) ∧
    parseSectorsAndModifiedDate "IT, Software (수정일 24/03/15)"
        = (["IT", "Software ()"], some "2024-03-15") ∧
    (∀ s, findMarker s.data 0 = none → (parseSectorsAndModifiedDate s).2 = none) ∧
    (∀ s pos len yy mm dd,
        findMarker s.data 0 = some (pos, len, yy, mm, dd) →
        (parseSectorsAndModifiedDate s).2 = some (momentFormatYMD (2000 + yy) mm dd)) := by
  refine ⟨by decide, by decide, by decide, ?_, ?_⟩
  · intro s h
    unfold parseSectorsAndModifiedDate
    simp [h]
  · intro s pos len yy mm dd h
    unfold parseSectorsAndModifiedDate
    simp [h]

/-! ## C7: salary-based recommendation -/

/-- C7.  The /pay strategy's row set contains exactly the postings whose
salary string ends in the annual `만원` suffix and whose stripped numeric
value is at least 1000, sorted descending by that value
(`salaryRowGE a b ↔ salaryNumber b ≤ salaryNumber a`); `"5,000 만원"`
parses to 5000 and qualifies, the `"추후 협의"` placeholder is excluded,
and monthly/hourly-qualified figures are excluded. -/
theorem salary_recommendation_correct :
    (∀ (rows : List (Nat × String)) (p : Nat × String),
        p ∈ payRecommendList rows ↔ p ∈ rows ∧ salaryQualifies p.2 = true) ∧
    (∀ rows, List.Sorted salaryRowGE (payRecommendList rows)) ∧
    (∀ a b : Nat × String, salaryRowGE a b ↔ salaryNumber b.2 ≤ salaryNumber a.2) ∧
    salaryQualifies "5,000 만원" = true ∧
    salaryNumber "5,000 만원" = 5000 ∧
    salaryQualifies "추후 협의" = false ∧
    salaryQualifies "월 3,000 만원" = false ∧
    salaryQualifies "시급 9,860원" = false := by
  refine ⟨?_, ?_, fun a b => Iff.rfl, by decide, by decide, by decide, by decide, by decide⟩
  · intro rows p
    rw [payRecommendList, List.mem_insertionSort, List.mem_filter]
  · intro rows
    exact List.sorted_insertionSort salaryRowGE _

/-! ## C9: bookmark toggle parity -/

theorem bookmarkCount_toggle_of_zero {rows : List BookmarkRow} {u p : Nat}
    (hp : p ≠ 0) (h : bookmarkCount rows u p = 0) (now : Nat) :
    bookmarkCount (bookmarkToggle rows u p now).2 u p = 1 := by
  have hnone : ∀ b ∈ rows, ¬bookmarkMatches u p b = true := by
    rw [bookmarkCount, List.length_eq_zero, List.filter_eq_nil_iff] at h
    exact h
  have hany : rows.any (bookmarkMatches u p) = false :=
    List.any_eq_false.mpr hnone
  have hp2 : (p == 0) = false := beq_eq_false_iff_ne.mpr hp
  rw [bookmarkToggle, if_neg (by simp [hp2]), if_neg (by simp [hany])]
  simp only [bookmarkCount, List.filter_append]
  rw [List.filter_eq_nil_iff.mpr hnone]
  simp [bookmarkMatches]

theorem bookmarkCount_toggle_of_pos {rows : List BookmarkRow} {u p : Nat}
    (hp : p ≠ 0) (h : 0 < bookmarkCount rows u p) (now : Nat) :
    bookmarkCount (bookmarkToggle rows u p now).2 u p = 0 := by
  have hne : (rows.filter (bookmarkMatches u p)) ≠ [] := by
    intro hnil
    rw [bookmarkCount, hnil] at h
    simp at h
  obtain ⟨b, hb⟩ := List.exists_mem_of_ne_nil _ hne
  have hmem := List.mem_filter.mp hb
  have hany : rows.any (bookmarkMatches u p) = true :=
    List.any_eq_true.mpr ⟨b, hmem.1, hmem.2⟩
  have hp2 : (p == 0) = false := beq_eq_false_iff_ne.mpr hp
  rw [bookmarkToggle, if_neg (by simp [hp2]), if_pos (by simp [hany])]
  simp only [bookmarkCount, List.filter_filter]
  rw [List.length_eq_zero, List.filter_eq_nil_iff]
  intro a _
  cases hm : bookmarkMatches u p a <;> simp [hm]

theorem bookmarkToggleN_parity {u p : Nat} (hp : p ≠ 0) :
    ∀ (times : List Nat) (rows : List BookmarkRow),
      (bookmarkCount rows u p = 0 →
        bookmarkCount (bookmarkToggleN rows u p times) u p =
          (if times.length % 2 = 1 then 1 else 0)) ∧
      (bookmarkCount rows u p = 1 →
        bookmarkCount (bookmarkToggleN rows u p times) u p =
          (if times.length % 2 = 1 then 0 else 1))
  | [], rows => by simp [bookmarkToggleN]
  | t :: ts, rows => by
    constructor
    · intro h0
      have h1 := bookmarkCount_toggle_of_zero hp h0 t
      have ih := (bookmarkToggleN_parity hp ts (bookmarkToggle rows u p t).2).2 h1
      simp only [bookmarkToggleN, List.foldl_cons] at ih ⊢
      rw [ih]
      rcases Nat.even_or_odd ts.length with he | ho
      · have h2 : ts.length % 2 = 0 := Nat.even_iff.mp he
        have h3 : (ts.length + 1) % 2 = 1 := by omega
        simp [List.length_cons, h2, h3]
      · have h2 : ts.length % 2 = 1 := Nat.odd_iff.mp ho
        have h3 : (ts.length + 1) % 2 = 0 := by omega
        simp [List.length_cons, h2, h3]
    · intro h0
      have h1 := @bookmarkCount_toggle_of_pos rows u p hp (by omega) t
      have ih := (bookmarkToggleN_parity hp ts (bookmarkToggle rows u p t).2).1 h1
      simp only [bookmarkToggleN, List.foldl_cons] at ih ⊢
      rw [ih]
      rcases Nat.even_or_odd ts.length with he | ho
      · have h2 : ts.length % 2 = 0 := Nat.even_iff.mp he
        have h3 : (ts.length + 1) % 2 = 1 := by omega
        simp [List.length_cons, h2, h3]
      · have h2 : ts.length % 2 = 1 := Nat.odd_iff.mp ho
        have h3 : (ts.length + 1) % 2 = 0 := by omega
        simp [List.length_cons, h2, h3]

/-- C9.  From a state holding no bookmark row for the (user, posting)
pair, an odd number of toggle calls (POST /bookmarks) leaves exactly one
row for the pair and an even number leaves none.  A `BookmarkRow` carries
no boolean flag at all — presence of the (user, posting) row is the whole
state, so no "bookmarked=false" row can exist. -/
theorem bookmark_toggle_parity (rows : List BookmarkRow) (u p : Nat)
    (times : List Nat) (hp : p ≠ 0) (h0 : bookmarkCount rows u p = 0) :
    bookmarkCount (bookmarkToggleN rows u p times) u p =
      (if times.length % 2 = 1 then 1 else 0) :=
  (bookmarkToggleN_parity hp times rows).1 h0

/-- Witness for C9: user 1, posting 5, three toggles then two toggles. -/
theorem bookmark_toggle_parity_witness :
    bookmarkCount (bookmarkToggleN [] 1 5 [10, 11, 12]) 1 5 = 1 ∧
    bookmarkCount (bookmarkToggleN [] 1 5 [10, 11]) 1 5 = 0 := by
  constructor
  · have := bookmark_toggle_parity [] 1 5 [10, 11, 12] (by decide) (by decide)
    simpa using this
  · have := bookmark_toggle_parity [] 1 5 [10, 11] (by decide) (by decide)
    simpa using this

/-! ## C10: registration rejects the documentation example address -/

/-- C10.  POST /auth/register rejects the literal `user@example.com` with
the invalid-email-format Validation error even though that address
matches the email regex, and the email guard passes every other
regex-matching address. -/
theorem register_blocks_example_email :
    emailRegexTest "user@example.com" = true ∧
    registerValidate "user@example.com" "Password123!" "홍길동"
        = some (.err "유효하지 않은 이메일 형식입니다." 400) ∧
    (∀ e : String, emailRegexTest e = true → e ≠ "user@example.com" →
      registerEmailCheckRejects e = false) := by
  refine ⟨by decide, by decide, ?_⟩
  intro e h1 h2
  rw [registerEmailCheckRejects, h1]
  simp [h2]

/-- Witness for C10 at the concrete address `a@b.cd`. -/
theorem register_blocks_example_email_witness :
    registerEmailCheckRejects "a@b.cd" = false :=
  register_blocks_example_email.2.2 "a@b.cd" (by decide) (by decide)

/-! ## C4: pagination boundaries -/

/-- C4 counterexample.  GET /bookmarks reads its page as
`parseInt(req.query.page) || 1`, so the explicit page 0 is coerced to 1
(the handler's own comment says so) and served, instead of being rejected
as an invalid page: with 5 bookmarks, `page=0` answers 200 with
currentPage 1. -/
theorem bookmarks_page_zero_served :
    bookmarksListOutcome (some 0) 5 = .ok "북마크 목록 반환" (some ⟨1, 1, 20, 5⟩) ∧
    ¬bookmarksListOutcome (some 0) 5 = .err "부적절한 페이지 값" 400 := by
  refine ⟨by decide, by decide⟩

/-- C4 as amended.  In the jobs listing (page from the JSON body, default
1) every page below 1 is rejected 400, a zero-match filter answers the
distinct 404 "no matching postings" for any requested page ≥ 1, a page
beyond `Math.ceil(totalItems/20)` is rejected 400, and an in-range page
succeeds.  In the bookmarks listing (page via `parseInt(...) || 1`) the
explicit page 0 is coerced to 1 and served like a missing parameter;
negative pages are rejected 400, zero bookmarks answer the distinct 404,
and beyond-range pages are rejected 400. -/
theorem pagination_boundaries (page : Int) (n : Nat) :
    (page ≤ 0 → jobsListOutcome page n = .err "부적절한 페이지 값" 400) ∧
    (1 ≤ page → n = 0 → jobsListOutcome page n = .err "부합한 공고가 없습니다." 404) ∧
    (1 ≤ page → 0 < n → (totalPagesOf n : Int) < page →
      jobsListOutcome page n = .err "부적절한 페이지 값" 400) ∧
    (1 ≤ page → 0 < n → page ≤ (totalPagesOf n : Int) →
      jobsListOutcome page n = .ok "공고 조회 성공" (some ⟨page, totalPagesOf n, 20, n⟩)) ∧
    (bookmarksListOutcome (some 0) n = bookmarksListOutcome none n) ∧
    (page < 0 → bookmarksListOutcome (some page) n = .err "부적절한 페이지 값" 400) ∧
    (1 ≤ page → n = 0 →
      bookmarksListOutcome (some page) n = .err "북마크 된 공고가 없습니다." 404) ∧
    (1 ≤ page → 0 < n → (totalPagesOf n : Int) < page →
      bookmarksListOutcome (some page) n = .err "부적절한 페이지 값" 400) := by
  refine ⟨?_, ?_, ?_, ?_, ?_, ?_, ?_, ?_⟩
  · intro h
    rw [jobsListOutcome, if_pos (by omega)]
  · intro h1 h2
    subst h2
    rw [jobsListOutcome, if_neg (by omega), if_pos (by simp)]
  · intro h1 h2 h3
    rw [jobsListOutcome, if_neg (by omega), if_neg (by simp; omega), if_pos (by omega)]
  · intro h1 h2 h3
    rw [jobsListOutcome, if_neg (by omega), if_neg (by simp; omega), if_neg (by omega)]
  · rfl
  · intro h
    have hne : ((page == 0) = false) := by
      rw [beq_eq_false_iff_ne]
      omega
    rw [bookmarksListOutcome, parsePageQuery]
    simp only [hne, Bool.false_eq_true, if_false]
    rw [if_pos (by omega)]
  · intro h1 h2
    subst h2
    have hne : ((page == 0) = false) := by
      rw [beq_eq_false_iff_ne]
      omega
    rw [bookmarksListOutcome, parsePageQuery]
    simp only [hne, Bool.false_eq_true, if_false]
    rw [if_neg (by omega), if_pos (by simp)]
  · intro h1 h2 h3
    have hne : ((page == 0) = false) := by
      rw [beq_eq_false_iff_ne]
      omega
    rw [bookmarksListOutcome, parsePageQuery]
    simp only [hne, Bool.false_eq_true, if_false]
    rw [if_neg (by omega), if_neg (by simp; omega), if_pos (by omega)]

/-- Witness for C4 at page 2 of a 30-item result set. -/
theorem pagination_boundaries_witness :
    jobsListOutcome 2 30 = .ok "공고 조회 성공" (some ⟨2, 2, 20, 30⟩) :=
  (pagination_boundaries 2 30).2.2.2.1 (by decide) (by decide) (by decide)

/-! ## C8: popularity recommendation pagination -/

/-- C8 (code bug).  GET /recommendations/popular sets
`totalItems = topJobs.length` — the size of the *fetched page*, not of
the qualifying set.  With 21 postings of positive distinct view counts
(so the RAND() tie-break is irrelevant), page 2 — which the claim says is
servable since ceil(21/20) = 2 — is rejected as an invalid page (the
fetched page holds 1 row, so the handler computes totalPages = 1 < 2),
and page 1 reports totalItems 20 instead of 21. -/
theorem popular_pagination_bug :
    popularOutcome ((List.range 21).map (fun i => (i + 1, i + 1))) (some 2)
        = .err "부적절한 페이지 값" 400 ∧
    popularOutcome ((List.range 21).map (fun i => (i + 1, i + 1))) (some 1)
        = .ok "인기 공고 조회 성공" (some ⟨1, 1, 20, 20⟩) ∧
    (((List.range 21).map (fun i => (i + 1, i + 1))).filter
        (fun r => decide (0 < r.2))).length = 21 ∧
    totalPagesOf 21 = 2 := by
  refine ⟨by decide, by decide, by decide, by decide⟩

/-! ## C1: ownership enforcement on update and delete -/

/-- A store with a single posting (id 1) owned by user 1. -/
def ownershipDB : DB :=
  { emptyDB with
      companies := ⟨[(1, "C")], 2⟩,
      postings := [⟨1, 1, some 1, "A", "L", "H", none, "D", none, "S", none, 0⟩],
      nextPostingId := 2 }

/-- A sparse PUT body that changes only the title. -/
def titleOnlyReq : UpdateReq := ⟨"", "B", "", "", "", none, none, "", ""⟩

/-- C1 (code bug).  User 2 updates posting 1, which user 1 owns: the PUT
handler queues its existence and ownership SELECTs but never reads their
results and has no 403/404 branch at all, so the update succeeds (200)
and the title and last-modified stamp of the other user's posting change.
(Even if the transaction helper aborted on an empty SELECT, the handler's
catch answers 500 `공고 수정 실패`, never 403.)  The DELETE handler, by
contrast, does enforce ownership: the same non-owner request answers 403
and leaves the store unchanged, and a missing id answers 404. -/
theorem update_ownership_not_enforced :
    (updateJob ownershipDB 2 1 titleOnlyReq "2024-12-13").1
        = .ok "공고가 성공적으로 수정되었습니다." none ∧
    (updateJob ownershipDB 2 1 titleOnlyReq "2024-12-13").2.postings
        = [⟨1, 1, some 1, "B", "L", "H", none, "D", some "2024-12-13", "S", none, 0⟩] ∧
    deleteJob ownershipDB 2 1 = (.err "이 공고를 삭제할 권한이 없습니다." 403, ownershipDB) ∧
    deleteJob ownershipDB 1 99 = (.err "삭제하려는 공고가 존재하지 않습니다." 404, ownershipDB) := by
  refine ⟨by decide, by decide, by decide, by decide⟩

/-! ## C2: dedup by link hash on the batch path -/

/-- First scraped record of the dedup scenario. -/
def dupRecord1 : RawRecord :=
  ⟨"컴퍼니", "타이틀", "http://x", "학사", "신입", "서울", "정규직",
   "IT, 소프트웨어", "2025-01-01", "5,000 만원"⟩

/-- Second record: the same link, every other field different. -/
def dupRecord2 : RawRecord :=
  ⟨"컴퍼니2", "타이틀2", "http://x", "석사", "경력", "부산", "계약직",
   "금융", "2025-02-02", "6,000만원"⟩

/-- C2 counterexample.  Ingesting two records with the same link does
leave exactly one posting row with the first record's title and salary,
but processing the second record is not a no-op on that row: the
employment-type block (insertData.js lines 71-85) still runs its UPDATE,
overwriting the posting's `employment_type_id` with the second record's
employment type (id 2, `계약직`) instead of the first record's (id 1,
`정규직`). -/
theorem batch_dedup_second_record_mutates :
    (insertData (fun s => s) emptyDB [dupRecord1]).postings.map
        (fun p => p.employmentTypeId) = [some 1] ∧
    (insertData (fun s => s) emptyDB [dupRecord1, dupRecord2]).postings.length = 1 ∧
    (insertData (fun s => s) emptyDB [dupRecord1, dupRecord2]).postings.map
        (fun p => (p.title, p.salary, p.employmentTypeId))
        = [("타이틀", "5,000 만원", some 2)] ∧
    (insertData (fun s => s) emptyDB [dupRecord1, dupRecord2]).employmentTypes.rows
        = [(1, "정규직"), (2, "계약직")] := by
  refine ⟨by decide, by decide, by decide, by decide⟩

/-- Ids in a dimension table are positive — what MySQL AUTO_INCREMENT
starting at 1 maintains. -/
def DimTable.IdsPos (t : DimTable) : Prop :=
  1 ≤ t.nextId ∧ ∀ x ∈ t.rows, 1 ≤ x.1

theorem idsPos_emptyDim : emptyDim.IdsPos :=
  ⟨Nat.le_refl 1, by simp [emptyDim]⟩

theorem DimTable.IdsPos.insertIgnore {t : DimTable} (h : t.IdsPos) (label : String) :
    (t.insertIgnore label).IdsPos := by
  unfold DimTable.insertIgnore
  split
  · exact h
  · refine ⟨show 1 ≤ t.nextId + 1 by omega, ?_⟩
    intro x hx
    rcases List.mem_append.mp hx with hx | hx
    · exact h.2 x hx
    · simp at hx
      subst hx
      exact h.1

theorem DimTable.IdsPos.selectId_pos {t : DimTable} (h : t.IdsPos) {label : String}
    {i : Nat} (hsel : t.selectId label = some i) : 1 ≤ i := by
  unfold DimTable.selectId at hsel
  rcases Option.map_eq_some'.mp hsel with ⟨x, hfind, hfst⟩
  subst hfst
  exact h.2 x (List.mem_of_find?_eq_some hfind)

theorem insertIgnore_emptyDim (label : String) :
    emptyDim.insertIgnore label = ⟨[(1, label)], 2⟩ := by
  simp [DimTable.insertIgnore, emptyDim]

theorem selectId_single (n m : Nat) (label : String) :
    (DimTable.mk [(n, label)] m).selectId label = some n := by
  simp [DimTable.selectId]

/-- Symbolic execution of `insertRecord` on the empty store: it writes a
single posting row with id 1, the record's scalar fields, and the
employment type resolved to dimension id 1 when the record carries one. -/
theorem insertRecord_emptyDB (hash : String → String) (r : RawRecord) :
    ∃ edu : Option Nat,
      (insertRecord hash emptyDB r).postings =
        [⟨1, 1, none, r.title, r.link, hash r.link, edu, r.deadline,
          (parseSectorsAndModifiedDate r.sectorField).2, r.salary,
          (if (r.employmentType != "") = true then some 1 else none), 0⟩] ∧
      (insertRecord hash emptyDB r).employmentTypes =
        (if (r.employmentType != "") = true then DimTable.mk [(1, r.employmentType)] 2
         else emptyDim) := by
  refine ⟨(if r.education != "" then emptyDim.insertIgnore r.education
           else emptyDim).selectId r.education, ?_, ?_⟩ <;>
  · unfold insertRecord
    cases het : r.employmentType != "" <;>
      simp [emptyDB, het, insertIgnore_emptyDim, selectId_single,
        List.find?_cons_of_pos]

/-- Symbolic execution of `insertRecord` on a store already holding the
record's link hash (one posting row): the posting INSERT IGNORE is
skipped, but the employment-type UPDATE still fires on the existing row. -/
theorem insertRecord_dup (hash : String → String) (db : DB) (r : RawRecord) (P : Posting)
    (hps : db.postings = [P]) (hhash : P.linkHash = hash r.link)
    (het : (r.employmentType != "") = true)
    (hpos : db.employmentTypes.IdsPos) :
    ∃ etId, 1 ≤ etId ∧
      (insertRecord hash db r).postings = [{ P with employmentTypeId := some etId }] ∧
      (insertRecord hash db r).employmentTypes
          = db.employmentTypes.insertIgnore r.employmentType ∧
      (insertRecord hash db r).employmentTypes.selectId r.employmentType = some etId := by
  obtain ⟨ci, hci⟩ := Option.isSome_iff_exists.mp
    (selectId_insertIgnore_isSome db.companies r.company)
  obtain ⟨etId, hetId⟩ := Option.isSome_iff_exists.mp
    (selectId_insertIgnore_isSome db.employmentTypes r.employmentType)
  have het1 : 1 ≤ etId :=
    (hpos.insertIgnore r.employmentType).selectId_pos hetId
  have hetne : (etId != 0) = true := by
    rw [bne_iff_ne]
    omega
  have hself : (P.linkHash == hash r.link) = true := by
    rw [hhash]
    exact beq_self_eq_true _
  refine ⟨etId, het1, ?_, ?_, ?_⟩ <;>
  · unfold insertRecord
    simp only [hci, hps, List.any_cons, List.any_nil, hself, Bool.or_false, if_true,
      List.find?_cons_of_pos _ hself, Option.map_some', het, hetId, hetne]
    simp [hetId, hhash]

/-- C2 as amended.  Batch-ingesting two records with an identical link
(from an empty store) leaves exactly one posting row whose user, title,
link, hash, deadline, modified date and salary all come from the first
record — the second record's posting INSERT is a no-op — but the second
record's employment-type block still updates that row: its
`employment_type_id` ends up resolving the *second* record's employment
type in the final employment-type table. -/
theorem batch_dedup_by_link_hash (hash : String → String) (r1 r2 : RawRecord)
    (hlink : r1.link = r2.link) (het : r2.employmentType ≠ "") :
    (insertData hash emptyDB [r1, r2]).postings.length = 1 ∧
    ∀ p ∈ (insertData hash emptyDB [r1, r2]).postings,
      p.id = 1 ∧ p.userId = none ∧ p.title = r1.title ∧ p.link = r1.link ∧
      p.linkHash = hash r1.link ∧ p.deadline = r1.deadline ∧
      p.lastModifiedDate = (parseSectorsAndModifiedDate r1.sectorField).2 ∧
      p.salary = r1.salary ∧
      (insertData hash emptyDB [r1, r2]).employmentTypes.selectId r2.employmentType
        = p.employmentTypeId ∧
      p.employmentTypeId ≠ none := by
  have hdata : insertData hash emptyDB [r1, r2]
      = insertRecord hash (insertRecord hash emptyDB r1) r2 := rfl
  obtain ⟨edu, hpost1, hemp1⟩ := insertRecord_emptyDB hash r1
  have hbne : (r2.employmentType != "") = true := bne_iff_ne.mpr het
  have hpos1 : (insertRecord hash emptyDB r1).employmentTypes.IdsPos := by
    rw [hemp1]
    split
    · exact ⟨by norm_num, by simp⟩
    · exact idsPos_emptyDim
  obtain ⟨etId, hpos, hpost2, hemp2, hsel2⟩ :=
    insertRecord_dup hash (insertRecord hash emptyDB r1) r2 _ hpost1
      (by rw [hlink]) hbne hpos1
  rw [hdata, hpost2]
  constructor
  · rfl
  · intro p hp
    simp only [List.mem_singleton] at hp
    subst hp
    refine ⟨rfl, rfl, rfl, rfl, rfl, rfl, rfl, rfl, ?_, by simp⟩
    rw [hsel2]

/-- Witness for C2 at the two concrete records of the scenario. -/
theorem batch_dedup_by_link_hash_witness :
    (insertData (fun s => s) emptyDB [dupRecord1, dupRecord2]).postings.length = 1 :=
  (batch_dedup_by_link_hash (fun s => s) dupRecord1 dupRecord2 rfl (by decide)).1

end CrawlingWeb
